import Mathlib

/-!
# Verification of the `autoit` global input-event logger (`src/logger.py`)

Shallow embedding of the `Logger` class from `logger.py`.  The Python class
holds mutable state (`_mouse_pos`, `_shift_held`, `_caps_held`, `_context`,
the two optional callbacks); we model it as an explicit state record and
model each method as a state-passing function.  External effects on the two
X connections (`local_dpy`, `record_dpy`) — disable, flush, create, enable,
free context — are recorded in an output trace of `XAction`s, and callback
invocations are recorded in an output trace of `Invocation`s (the Python
callbacks are opaque; what the code guarantees is which events are handed
to which observer, in which order).

`local_dpy.keycode_to_keysym` is a lookup on the X server's keymap; it is
modelled as an explicit parameter `kmap : Nat → Nat → Nat`
(keycode → group → keysym).  `Xlib.protocol.rq.EventField.parse_binary_value`
is library code that slices the reply byte buffer into consecutive core X
events; we model a reply's data directly as the list of parsed events, and
the raw first byte of the buffer (tested by `reply.data[0] < 2`) as the
type code of the first event, which is what the first byte of a core X
event on the wire is.
-/

namespace AutoitLogger

/-! ## X11 constants, as bound by `Xlib` in `logger.py` -/

/-- `Xlib.X.KeyPress`. -/
def xKeyPress : Nat := 2
/-- `Xlib.X.KeyRelease`. -/
def xKeyRelease : Nat := 3
/-- `Xlib.X.ButtonPress`. -/
def xButtonPress : Nat := 4
/-- `Xlib.X.ButtonRelease`. -/
def xButtonRelease : Nat := 5
/-- `Xlib.X.MotionNotify`. -/
def xMotionNotify : Nat := 6

/-- `Xlib.X.Button1` … `Button5`. -/
def xButton1 : Nat := 1
def xButton2 : Nat := 2
def xButton3 : Nat := 3
def xButton4 : Nat := 4
def xButton5 : Nat := 5

/-- `Xlib.ext.record.FromServer`. -/
def recFromServer : Nat := 0

/-- `Xlib.XK.XK_Shift_L`, `XK_Shift_R`, `XK_Shift_Lock`, `XK_Caps_Lock`. -/
def xkShiftL : Nat := 0xffe1
def xkShiftR : Nat := 0xffe2
def xkShiftLock : Nat := 0xffe6
def xkCapsLock : Nat := 0xffe5

/-- The keysyms of `self._shiftable`: `XK_<c>` for each character of
`abcdefghijklmnopqrstuvwxyz0123456789` together with the eleven named
punctuation keysyms listed in `Logger.__init__`.  The Latin-1 keysym of a
printable ASCII character equals its code point. -/
def shiftableKeysyms : List Nat :=
  [0x61, 0x62, 0x63, 0x64, 0x65, 0x66, 0x67, 0x68, 0x69, 0x6a, 0x6b, 0x6c,
   0x6d, 0x6e, 0x6f, 0x70, 0x71, 0x72, 0x73, 0x74, 0x75, 0x76, 0x77, 0x78,
   0x79, 0x7a,
   0x30, 0x31, 0x32, 0x33, 0x34, 0x35, 0x36, 0x37, 0x38, 0x39,
   0x2d, 0x3d, 0x5b, 0x5d, 0x3b, 0x5c, 0x27, 0x2c, 0x2e, 0x2f, 0x60]

/-- The tuple `self._shift_keys`. -/
def shiftKeys : List Nat := [xkShiftL, xkShiftR, xkShiftLock]

/-! ## Parsed X event records

`parse_binary_value` yields core X events; `_process_events` reads their
`.type`, `.detail` (keycode or button code) and, for motion, `.root_x` /
`.root_y` fields. -/

/-- One core X event record as sliced out of a reply buffer. -/
inductive XEvent where
  | keyPress (detail : Nat)
  | keyRelease (detail : Nat)
  | buttonPress (detail : Nat)
  | buttonRelease (detail : Nat)
  | motionNotify (rootX rootY : Int)
  | otherEvent (code : Nat)
  deriving DecidableEq, Repr

/-- The `.type` field of the record, which is also the first byte of the
record on the wire. -/
def XEvent.typeCode : XEvent → Nat
  | .keyPress _ => xKeyPress
  | .keyRelease _ => xKeyRelease
  | .buttonPress _ => xButtonPress
  | .buttonRelease _ => xButtonRelease
  | .motionNotify _ _ => xMotionNotify
  | .otherEvent c => c

/-- A reply delivered by the record extension to `_process_events`:
its `category`, `client_swapped` flag, and `data` buffer (modelled as the
list of event records the buffer parses into). -/
structure Reply where
  category : Nat
  clientSwapped : Bool
  data : List XEvent
  deriving DecidableEq, Repr

/-- The raw first byte of the reply's data buffer (`reply.data[0]`):
the type code of the first record, or `0` for an empty buffer (the empty
case is already excluded by the `not reply.data` test before the byte is
read). -/
def Reply.firstByte (r : Reply) : Nat :=
  match r.data with
  | [] => 0
  | e :: _ => e.typeCode

/-! ## Public event types -/

/-- `KeyEvent` as constructed by `KeyEvent.__init__`. -/
structure KeyEvent where
  key : Nat
  down : Bool
  up : Bool
  shift : Bool
  caps : Bool
  deriving DecidableEq, Repr

/-- `KeyEvent(key, down, shift, caps)`: `up` is computed as `not down`. -/
def mkKeyEvent (key : Nat) (down shift caps : Bool) : KeyEvent :=
  { key := key, down := down, up := !down, shift := shift, caps := caps }

/-- `MouseEvent` as constructed by `MouseEvent.__init__`.  The Python
`down` argument is `None` for motion events (modelled as `none`); Python's
`not None` is `True`, so `up` is true for motion events. -/
structure MouseEvent where
  left : Bool
  right : Bool
  middle : Bool
  wheel : Int
  other : Nat
  down : Option Bool
  up : Bool
  x : Int
  y : Int
  pos : Int × Int
  move : Bool
  deriving DecidableEq, Repr

/-- `MouseEvent(other, down, pos, move)`. -/
def mkMouseEvent (other : Nat) (down : Option Bool) (pos : Int × Int)
    (move : Bool) : MouseEvent :=
  { left := other == xButton1
    right := other == xButton3
    middle := other == xButton2
    wheel := if other == xButton4 then 1 else if other == xButton5 then -1 else 0
    other := other
    down := down
    up := match down with | some b => !b | none => true
    x := pos.1
    y := pos.2
    pos := pos
    move := move }

/-! ## Logger state and traces -/

/-- A callback invocation performed by `_process_events`:
`self._key_cb(e)` or `self._mouse_cb(e)`. -/
inductive Invocation where
  | key (e : KeyEvent)
  | mouse (e : MouseEvent)
  deriving DecidableEq, Repr

def Invocation.isMouse : Invocation → Bool
  | .mouse _ => true
  | .key _ => false

/-- Which of the two X connections an effect is issued on:
`local_dpy` or `record_dpy`. -/
inductive Conn where
  | localDpy
  | recordDpy
  deriving DecidableEq, Repr

/-- External calls the `Logger` makes on its X connections. -/
inductive XAction where
  | createContext (c : Conn) (handle : Nat)
  | enableContext (c : Conn) (handle : Nat)
  | disableContext (c : Conn) (handle : Nat)
  | freeContext (c : Conn) (handle : Nat)
  | flush (c : Conn)
  deriving DecidableEq, Repr

def XAction.isFree : XAction → Bool
  | .freeContext _ _ => true
  | _ => false

/-- The mutable state of a `Logger` instance set up in `Logger.__init__`,
plus the two optional callback registrations (`_key_cb` / `_mouse_cb`
modelled as registered-or-not flags: the code only tests them for truth
and hands events to them). -/
structure Logger where
  keyCbSet : Bool
  mouseCbSet : Bool
  context : Option Nat
  mousePos : Int × Int
  shiftHeld : Bool
  capsHeld : Bool
  deriving DecidableEq, Repr

/-- The Python exception classes relevant to construction. -/
inductive PyError where
  | valueError
  | displayConnectionError
  | connectionError
  deriving DecidableEq, Repr

/-- `Logger.__init__`: opening the displays fails with Xlib's
`DisplayConnectionError` when the server is unreachable (library
behaviour of `Xlib.display.Display()`); with the server reachable, the
constructor raises `ValueError` when `'RECORD'` is not among the record
display's extensions, and otherwise initializes the state fields. -/
def loggerInit (serverReachable : Bool) (extensions : List String) :
    Except PyError Logger :=
  if !serverReachable then
    .error .displayConnectionError
  else if !(extensions.contains "RECORD") then
    .error .valueError
  else
    .ok { keyCbSet := false
          mouseCbSet := false
          context := none
          mousePos := (0, 0)
          shiftHeld := false
          capsHeld := false }

/-! ## Event construction (`_create_*` methods)

Each returns the updated state together with the event handed to the
callback.  `kmap keycode group` models `local_dpy.keycode_to_keysym`. -/

/-- `Logger._create_key_press_event`. -/
def createKeyPressEvent (kmap : Nat → Nat → Nat) (st : Logger)
    (detail : Nat) : Logger × KeyEvent :=
  let keysym := kmap detail 0
  if (st.shiftHeld || st.capsHeld) && shiftableKeysyms.contains keysym then
    let keysym := kmap detail 1
    (st, mkKeyEvent keysym true st.shiftHeld st.capsHeld)
  else if shiftKeys.contains keysym then
    let st := { st with shiftHeld := true }
    (st, mkKeyEvent keysym true st.shiftHeld st.capsHeld)
  else if keysym == xkCapsLock then
    let st := { st with capsHeld := !st.capsHeld }
    (st, mkKeyEvent keysym true st.shiftHeld st.capsHeld)
  else
    (st, mkKeyEvent keysym true st.shiftHeld st.capsHeld)

/-- `Logger._create_key_release_event`. -/
def createKeyReleaseEvent (kmap : Nat → Nat → Nat) (st : Logger)
    (detail : Nat) : Logger × KeyEvent :=
  let keysym := kmap detail 0
  if (st.shiftHeld || st.capsHeld) && shiftableKeysyms.contains keysym then
    let keysym := kmap detail 1
    (st, mkKeyEvent keysym false st.shiftHeld st.capsHeld)
  else if shiftKeys.contains keysym then
    let st := { st with shiftHeld := false }
    (st, mkKeyEvent keysym false st.shiftHeld st.capsHeld)
  else
    (st, mkKeyEvent keysym false st.shiftHeld st.capsHeld)

/-- `Logger._create_button_press_event`. -/
def createButtonPressEvent (st : Logger) (detail : Nat) : Logger × MouseEvent :=
  (st, mkMouseEvent detail (some true) st.mousePos false)

/-- `Logger._create_button_release_event`. -/
def createButtonReleaseEvent (st : Logger) (detail : Nat) : Logger × MouseEvent :=
  (st, mkMouseEvent detail (some false) st.mousePos false)

/-- `Logger._create_mouse_move_event`. -/
def createMouseMoveEvent (st : Logger) (rootX rootY : Int) :
    Logger × MouseEvent :=
  let st := { st with mousePos := (rootX, rootY) }
  (st, mkMouseEvent 0 none st.mousePos true)

/-! ## The dispatch body (`_process_events`) -/

/-- The `if self._key_cb:` block of the per-record loop. -/
def handleKeyBlock (kmap : Nat → Nat → Nat) (st : Logger) (ev : XEvent) :
    Logger × List Invocation :=
  if st.keyCbSet then
    match ev with
    | .keyPress d =>
      let r := createKeyPressEvent kmap st d
      (r.1, [.key r.2])
    | .keyRelease d =>
      let r := createKeyReleaseEvent kmap st d
      (r.1, [.key r.2])
    | _ => (st, [])
  else (st, [])

/-- The `if self._mouse_cb:` block of the per-record loop. -/
def handleMouseBlock (st : Logger) (ev : XEvent) : Logger × List Invocation :=
  if st.mouseCbSet then
    match ev with
    | .buttonPress d =>
      let r := createButtonPressEvent st d
      (r.1, [.mouse r.2])
    | .buttonRelease d =>
      let r := createButtonReleaseEvent st d
      (r.1, [.mouse r.2])
    | .motionNotify x y =>
      let r := createMouseMoveEvent st x y
      (r.1, [.mouse r.2])
    | _ => (st, [])
  else (st, [])

/-- One iteration of the `while data:` loop: the key block followed by the
mouse block on the same record. -/
def processRecord (kmap : Nat → Nat → Nat) (st : Logger) (ev : XEvent) :
    Logger × List Invocation :=
  let r1 := handleKeyBlock kmap st ev
  let r2 := handleMouseBlock r1.1 ev
  (r2.1, r1.2 ++ r2.2)

/-- The `while data:` loop of `_process_events`. -/
def processData (kmap : Nat → Nat → Nat) (st : Logger) :
    List XEvent → Logger × List Invocation
  | [] => (st, [])
  | ev :: rest =>
    let r1 := processRecord kmap st ev
    let r2 := processData kmap r1.1 rest
    (r2.1, r1.2 ++ r2.2)

/-- The validity test of `_process_events`: the reply is dropped unless it
is `FromServer`, not client-swapped, non-empty, and its first data byte is
at least 2. -/
def replyValid (r : Reply) : Bool :=
  r.category == recFromServer && !r.clientSwapped && !r.data.isEmpty
    && decide (2 ≤ r.firstByte)

/-- `Logger._process_events`. -/
def processEvents (kmap : Nat → Nat → Nat) (st : Logger) (r : Reply) :
    Logger × List Invocation :=
  if replyValid r then processData kmap st r.data else (st, [])

/-! ## Lifecycle (`run`, `stop`) -/

/-- The context handle `record_create_context` returns; an opaque non-zero
server-assigned id (Python's `if self._context:` tests it for truth, so a
handle must be truthy). -/
def ctxHandle : Nat := 1

/-- Fold of `_process_events` over the stream of replies the server
delivers while `record_enable_context` is blocked. -/
def processReplies (kmap : Nat → Nat → Nat) (st : Logger) :
    List Reply → Logger × List Invocation
  | [] => (st, [])
  | r :: rest =>
    let r1 := processEvents kmap st r
    let r2 := processReplies kmap r1.1 rest
    (r2.1, r1.2 ++ r2.2)

/-- `Logger.run`, applied to the stream of replies delivered before the
blocking `record_enable_context` call returns (by interrupt or connection
end).  It stores a fresh context handle, processes every reply, and in the
`finally` block frees the context on the record connection.  Note the
`finally` block does not clear `self._context`. -/
def runLogger (kmap : Nat → Nat → Nat) (st : Logger) (replies : List Reply) :
    Logger × List Invocation × List XAction :=
  let st1 := { st with context := some ctxHandle }
  let res := processReplies kmap st1 replies
  (res.1, res.2,
    [.createContext .recordDpy ctxHandle, .enableContext .recordDpy ctxHandle,
     .freeContext .recordDpy ctxHandle])

/-- `Logger.stop`: if a context handle is stored, disable it on the local
connection, flush the local connection, and clear the handle; otherwise do
nothing. -/
def stopLogger (st : Logger) : Logger × List XAction :=
  match st.context with
  | some c =>
    ({ st with context := none },
     [.disableContext .localDpy c, .flush .localDpy])
  | none => (st, [])

/-! ## Record classification helpers -/

/-- Whether a record is a pointer-motion record. -/
def XEvent.isMotion : XEvent → Bool
  | .motionNotify _ _ => true
  | _ => false

/-- Whether a record is a mouse record (button press/release or motion). -/
def XEvent.isMouseRecord : XEvent → Bool
  | .buttonPress _ => true
  | .buttonRelease _ => true
  | .motionNotify _ _ => true
  | _ => false

/-! ## Sample states and keymaps for concrete evaluations -/

/-- The state `Logger.__init__` produces on a healthy server. -/
def freshLogger : Logger :=
  { keyCbSet := false, mouseCbSet := false, context := none
    mousePos := (0, 0), shiftHeld := false, capsHeld := false }

/-- A fresh logger with only a keyboard callback registered. -/
def kbOnlyLogger : Logger := { freshLogger with keyCbSet := true }

/-- A fresh logger with only a mouse callback registered. -/
def mouseOnlyLogger : Logger := { freshLogger with mouseCbSet := true }

/-- A logger holding a live recording context. -/
def runningLogger : Logger := { freshLogger with context := some ctxHandle }

/-- A logger whose Shift modifier is currently held. -/
def shiftHeldLogger : Logger := { freshLogger with shiftHeld := true }

/-- A trivial keymap. -/
def kmap0 : Nat → Nat → Nat := fun _ _ => 0

/-- A keymap where keycode 38 carries lowercase a in group 0 and uppercase
A in group 1 (the usual X layout for the `a` key). -/
def kmapLetterA : Nat → Nat → Nat := fun d g =>
  if d = 38 then (if g = 0 then 0x61 else 0x41) else 0

/-- A keymap where keycode 66 is Caps Lock and keycode 38 is the `a`
key. -/
def kmapCapsAndA : Nat → Nat → Nat := fun d g =>
  if d = 66 then xkCapsLock
  else if d = 38 then (if g = 0 then 0x61 else 0x41)
  else 0

/-- A keymap where keycode 50 is the left Shift key. -/
def kmapShiftAt50 : Nat → Nat → Nat := fun d _ =>
  if d = 50 then xkShiftL else 0

/-- The reply of the ordering scenario: records
`[KeyPress(A), Motion(10, 20), ButtonPress(1)]`, valid (from server, not
swapped, non-empty, first byte `= 2 ≥ 2`). -/
def orderingReply : Reply :=
  { category := recFromServer, clientSwapped := false
    data := [.keyPress 38, .motionNotify 10 20, .buttonPress 1] }

/-- A valid reply containing a single motion record. -/
def motionOnlyReply : Reply :=
  { category := recFromServer, clientSwapped := false
    data := [.motionNotify 10 20] }

/-- A valid reply containing a single key-press record. -/
def keyPressOnlyReply : Reply :=
  { category := recFromServer, clientSwapped := false
    data := [.keyPress 50] }

/-! ## Frame lemmas

Which state fields each piece of the dispatch body can touch. -/

theorem createKeyPressEvent_fst_frame (kmap : Nat → Nat → Nat) (st : Logger)
    (d : Nat) :
    (createKeyPressEvent kmap st d).1.mousePos = st.mousePos ∧
    (createKeyPressEvent kmap st d).1.keyCbSet = st.keyCbSet ∧
    (createKeyPressEvent kmap st d).1.mouseCbSet = st.mouseCbSet ∧
    (createKeyPressEvent kmap st d).1.context = st.context := by
  unfold createKeyPressEvent
  dsimp only
  repeat first | rfl | exact ⟨rfl, rfl, rfl, rfl⟩ | split

theorem createKeyReleaseEvent_fst_frame (kmap : Nat → Nat → Nat)
    (st : Logger) (d : Nat) :
    (createKeyReleaseEvent kmap st d).1.mousePos = st.mousePos ∧
    (createKeyReleaseEvent kmap st d).1.keyCbSet = st.keyCbSet ∧
    (createKeyReleaseEvent kmap st d).1.mouseCbSet = st.mouseCbSet ∧
    (createKeyReleaseEvent kmap st d).1.context = st.context := by
  unfold createKeyReleaseEvent
  dsimp only
  repeat first | rfl | exact ⟨rfl, rfl, rfl, rfl⟩ | split

theorem handleKeyBlock_fst_frame (kmap : Nat → Nat → Nat) (st : Logger)
    (ev : XEvent) :
    (handleKeyBlock kmap st ev).1.mousePos = st.mousePos ∧
    (handleKeyBlock kmap st ev).1.keyCbSet = st.keyCbSet ∧
    (handleKeyBlock kmap st ev).1.mouseCbSet = st.mouseCbSet ∧
    (handleKeyBlock kmap st ev).1.context = st.context := by
  unfold handleKeyBlock
  split
  · cases ev with
    | keyPress d => exact createKeyPressEvent_fst_frame kmap st d
    | keyRelease d => exact createKeyReleaseEvent_fst_frame kmap st d
    | buttonPress d => exact ⟨rfl, rfl, rfl, rfl⟩
    | buttonRelease d => exact ⟨rfl, rfl, rfl, rfl⟩
    | motionNotify x y => exact ⟨rfl, rfl, rfl, rfl⟩
    | otherEvent c => exact ⟨rfl, rfl, rfl, rfl⟩
  · exact ⟨rfl, rfl, rfl, rfl⟩

theorem handleMouseBlock_fst_frame (st : Logger) (ev : XEvent) :
    (handleMouseBlock st ev).1.shiftHeld = st.shiftHeld ∧
    (handleMouseBlock st ev).1.capsHeld = st.capsHeld ∧
    (handleMouseBlock st ev).1.keyCbSet = st.keyCbSet ∧
    (handleMouseBlock st ev).1.mouseCbSet = st.mouseCbSet ∧
    (handleMouseBlock st ev).1.context = st.context := by
  unfold handleMouseBlock createButtonPressEvent createButtonReleaseEvent
    createMouseMoveEvent
  split
  · cases ev <;> exact ⟨rfl, rfl, rfl, rfl, rfl⟩
  · exact ⟨rfl, rfl, rfl, rfl, rfl⟩

theorem handleMouseBlock_mousePos_of_not_motion (st : Logger) (ev : XEvent)
    (h : ev.isMotion = false) :
    (handleMouseBlock st ev).1.mousePos = st.mousePos := by
  unfold handleMouseBlock createButtonPressEvent createButtonReleaseEvent
    createMouseMoveEvent
  split
  · cases ev with
    | motionNotify x y => simp [XEvent.isMotion] at h
    | keyPress d => rfl
    | keyRelease d => rfl
    | buttonPress d => rfl
    | buttonRelease d => rfl
    | otherEvent c => rfl
  · rfl

theorem processRecord_cb_frame (kmap : Nat → Nat → Nat) (st : Logger)
    (ev : XEvent) :
    (processRecord kmap st ev).1.keyCbSet = st.keyCbSet ∧
    (processRecord kmap st ev).1.mouseCbSet = st.mouseCbSet := by
  have hk := handleKeyBlock_fst_frame kmap st ev
  have hm := handleMouseBlock_fst_frame (handleKeyBlock kmap st ev).1 ev
  unfold processRecord
  exact ⟨hm.2.2.1.trans hk.2.1, hm.2.2.2.1.trans hk.2.2.1⟩

/-! ## Claim theorems -/

/-- C6: every reply that fails the validity check (not from-server,
byte-swapped, empty, or first data byte below 2) is dropped whole:
`_process_events` performs no observer invocation and returns the state
unchanged (and, being a total function, never raises). -/
theorem c6_invalid_reply_dropped (kmap : Nat → Nat → Nat) (st : Logger)
    (r : Reply) (h : replyValid r = false) :
    processEvents kmap st r = (st, []) := by
  unfold processEvents
  rw [h]
  rfl

/-- Witness for C6: a reply whose category is not `FromServer`. -/
theorem c6_invalid_reply_dropped_witness :
    replyValid { category := 1, clientSwapped := false
                 data := [XEvent.keyPress 38] } = false ∧
    processEvents kmap0 freshLogger
      { category := 1, clientSwapped := false
        data := [XEvent.keyPress 38] } = (freshLogger, []) :=
  ⟨by decide,
   c6_invalid_reply_dropped kmap0 freshLogger _ (by decide)⟩

/-- C2 counterexample: with the server reachable but the RECORD extension
absent, `Logger.__init__` raises `ValueError`, not `ConnectionError`. -/
theorem c2_counterexample :
    loggerInit true ["XTEST", "SHAPE"] = .error .valueError ∧
    PyError.valueError ≠ PyError.connectionError := by
  constructor
  · rfl
  · decide

/-- C2 amended: construction fails with Xlib's `DisplayConnectionError`
when the window server is unreachable, and with `ValueError` when the
server is reachable but does not advertise the RECORD extension; in
neither case is the builtin `ConnectionError` raised. -/
theorem c2_init_failure_kinds (reachable : Bool) (exts : List String) :
    (reachable = false →
      loggerInit reachable exts = .error .displayConnectionError) ∧
    (reachable = true → exts.contains "RECORD" = false →
      loggerInit reachable exts = .error .valueError) ∧
    (∀ e, loggerInit reachable exts = .error e → e ≠ .connectionError) := by
  refine ⟨?_, ?_, ?_⟩
  · intro h
    simp [loggerInit, h]
  · intro h hr
    unfold loggerInit
    rw [h, hr]
    rfl
  · intro e he
    unfold loggerInit at he
    split at he
    · cases he
      decide
    · split at he
      · cases he
        decide
      · cases he

/-- Witness for C2: the unreachable case at `(false, [])`, the missing
extension case at `(true, [])`. -/
theorem c2_init_failure_kinds_witness :
    loggerInit false [] = .error .displayConnectionError ∧
    loggerInit true [] = .error .valueError :=
  ⟨(c2_init_failure_kinds false []).1 rfl,
   (c2_init_failure_kinds true []).2.1 rfl rfl⟩

/-- C3 counterexample: a key-RELEASE of the `a` key while Shift is held
also carries the group-1 keysym (`0x41`, uppercase A), so group 1 is not
used exactly when the event is a key-down. -/
theorem c3_counterexample :
    (createKeyReleaseEvent kmapLetterA shiftHeldLogger 38).2.down = false ∧
    (createKeyReleaseEvent kmapLetterA shiftHeldLogger 38).2.key = 0x41 ∧
    kmapLetterA 38 1 = 0x41 ∧ kmapLetterA 38 0 = 0x61 := by
  decide

/-- C3 amended: for both key-down and key-up events, the emitted
`KeyEvent` carries the group-1 keysym exactly when the group-0 keysym is a
shiftable symbol and `shift_held OR caps_held` is true at that moment; in
every other case the group-0 keysym is kept. -/
theorem c3_group_resolution (kmap : Nat → Nat → Nat) (st : Logger)
    (d : Nat) :
    (createKeyPressEvent kmap st d).2.key =
      (if (st.shiftHeld || st.capsHeld)
          && shiftableKeysyms.contains (kmap d 0)
       then kmap d 1 else kmap d 0) ∧
    (createKeyReleaseEvent kmap st d).2.key =
      (if (st.shiftHeld || st.capsHeld)
          && shiftableKeysyms.contains (kmap d 0)
       then kmap d 1 else kmap d 0) := by
  constructor
  · unfold createKeyPressEvent
    dsimp only
    repeat first | rfl | split
  · unfold createKeyReleaseEvent
    dsimp only
    repeat first | rfl | split

/-- C8: a Caps Lock key-down toggles `caps_held`; concretely, starting
from a fresh logger, the sequence KeyPress(CapsLock), KeyPress(a),
KeyPress(CapsLock), KeyPress(a) resolves the first `a` to the group-1
keysym (uppercase A) and the second `a` to the group-0 keysym (lowercase
a) again. -/
theorem c8_capslock_toggle (kmap : Nat → Nat → Nat) (st : Logger) (d : Nat)
    (h : kmap d 0 = xkCapsLock) :
    (createKeyPressEvent kmap st d).1.capsHeld = !st.capsHeld ∧
    (createKeyPressEvent kmapCapsAndA
        (createKeyPressEvent kmapCapsAndA freshLogger 66).1 38).2.key
      = 0x41 ∧
    (createKeyPressEvent kmapCapsAndA
        (createKeyPressEvent kmapCapsAndA
          (createKeyPressEvent kmapCapsAndA
            (createKeyPressEvent kmapCapsAndA freshLogger 66).1 38).1
          66).1 38).2.key
      = 0x61 := by
  refine ⟨?_, by decide, by decide⟩
  unfold createKeyPressEvent
  rw [h]
  have h1 : shiftableKeysyms.contains xkCapsLock = false := by decide
  have h2 : shiftKeys.contains xkCapsLock = false := by decide
  have h3 : (xkCapsLock == xkCapsLock) = true := by decide
  dsimp only
  rw [h1, h2, h3]
  simp

/-- Witness for C8: the toggle at the concrete caps keymap and a fresh
logger. -/
theorem c8_capslock_toggle_witness :
    (createKeyPressEvent kmapCapsAndA freshLogger 66).1.capsHeld
      = !freshLogger.capsHeld :=
  (c8_capslock_toggle kmapCapsAndA freshLogger 66 (by decide)).1

/-- C9: `stop()` is idempotent: a second consecutive call returns the
state unchanged and performs no X calls, and calling `stop()` when no
context was ever stored is a no-op (and, being total, it never raises). -/
theorem c9_stop_idempotent (st : Logger) :
    stopLogger (stopLogger st).1 = ((stopLogger st).1, []) ∧
    (st.context = none → stopLogger st = (st, [])) := by
  constructor
  · cases h : st.context <;> simp [stopLogger, h]
  · intro h
    simp [stopLogger, h]

/-- Witness for C9: a logger holding a context, and a fresh logger that
never ran. -/
theorem c9_stop_idempotent_witness :
    stopLogger (stopLogger runningLogger).1 = ((stopLogger runningLogger).1, []) ∧
    stopLogger freshLogger = (freshLogger, []) :=
  ⟨(c9_stop_idempotent runningLogger).1,
   (c9_stop_idempotent freshLogger).2 rfl⟩

/-- C4 counterexample: on a logger holding a context, `stop()` issues
exactly a disable call and a flush, both on the local connection: no free
call occurs, and no call at all is issued on the recorder connection. -/
theorem c4_counterexample :
    (stopLogger runningLogger).2 =
      [.disableContext .localDpy ctxHandle, .flush .localDpy] ∧
    (∀ a ∈ (stopLogger runningLogger).2, a.isFree = false) ∧
    XAction.disableContext .recordDpy ctxHandle ∉
      (stopLogger runningLogger).2 := by
  refine ⟨by decide, ?_, by decide⟩
  intro a ha
  have : a = .disableContext .localDpy ctxHandle ∨ a = .flush .localDpy := by
    simpa [stopLogger, runningLogger, freshLogger] using ha
  rcases this with rfl | rfl <;> rfl

/-- C4 amended: when a recording context exists, `stop()` issues the
disable call on the local (control) connection, flushes that same
connection, and clears the stored context handle; it does not free the
context — the context is freed on the recorder connection by `run()`'s
cleanup. -/
theorem c4_stop_behavior (st : Logger) (c : Nat) (h : st.context = some c) :
    stopLogger st =
      ({ st with context := none },
       [.disableContext .localDpy c, .flush .localDpy]) ∧
    (∀ a ∈ (stopLogger st).2, a.isFree = false) ∧
    ∀ (kmap : Nat → Nat → Nat) (replies : List Reply),
      XAction.freeContext .recordDpy ctxHandle ∈
        (runLogger kmap st replies).2.2 := by
  refine ⟨by simp [stopLogger, h], ?_, ?_⟩
  · intro a ha
    simp only [stopLogger, h, List.mem_cons, List.not_mem_nil, or_false] at ha
    rcases ha with rfl | rfl <;> rfl
  · intro kmap replies
    simp [runLogger]

/-- Witness for C4: the running logger with its stored handle. -/
theorem c4_stop_behavior_witness :
    stopLogger runningLogger =
      ({ runningLogger with context := none },
       [.disableContext .localDpy ctxHandle, .flush .localDpy]) ∧
    XAction.freeContext .recordDpy ctxHandle ∈
      (runLogger kmap0 runningLogger []).2.2 :=
  ⟨(c4_stop_behavior runningLogger ctxHandle rfl).1,
   (c4_stop_behavior runningLogger ctxHandle rfl).2.2 kmap0 []⟩

/-- C5 counterexample: `run()` does not reset modifier state at entry: a
logger whose Shift modifier is held enters `run()` with an empty reply
stream and comes out with `shift_held` still true (a reset to the initial
both-false state would have produced false), and a key press of `a`
processed inside that run resolves to the group-1 keysym, showing the
pre-run Shift state is visible inside the new loop. -/
theorem c5_counterexample :
    (runLogger kmap0 shiftHeldLogger []).1.shiftHeld = true ∧
    (runLogger kmapLetterA { shiftHeldLogger with keyCbSet := true }
      [{ category := recFromServer, clientSwapped := false
         data := [XEvent.keyPress 38] }]).2.1 =
      [.key (mkKeyEvent 0x41 true true false)] := by
  constructor
  · rfl
  · rfl

/-- C5 amended: modifier state is initialized (both flags false) once at
construction and is never reset by `run()`: entering `run()` leaves
`shift_held`, `caps_held` and the pointer position unchanged, and the
state after `run()` is exactly the result of processing the reply stream
from the pre-run state (with the fresh context handle stored), so modifier
state persists across successive loops of the same Logger instance. -/
theorem c5_modifier_state_persists (kmap : Nat → Nat → Nat) (st : Logger)
    (replies : List Reply) :
    (runLogger kmap st []).1.shiftHeld = st.shiftHeld ∧
    (runLogger kmap st []).1.capsHeld = st.capsHeld ∧
    (runLogger kmap st []).1.mousePos = st.mousePos ∧
    (runLogger kmap st replies).1 =
      (processReplies kmap { st with context := some ctxHandle } replies).1 ∧
    (loggerInit true ["RECORD"] = .ok freshLogger ∧
      freshLogger.shiftHeld = false ∧ freshLogger.capsHeld = false) := by
  exact ⟨rfl, rfl, rfl, rfl, rfl, rfl, rfl⟩

/-! ## Per-record dispatch lemmas -/

theorem handleKeyBlock_of_no_keycb (kmap : Nat → Nat → Nat) (st : Logger)
    (ev : XEvent) (h : st.keyCbSet = false) :
    handleKeyBlock kmap st ev = (st, []) := by
  unfold handleKeyBlock
  rw [h]
  rfl

theorem handleMouseBlock_of_no_mousecb (st : Logger) (ev : XEvent)
    (h : st.mouseCbSet = false) :
    handleMouseBlock st ev = (st, []) := by
  unfold handleMouseBlock
  rw [h]
  rfl

theorem handleKeyBlock_of_mouse_record (kmap : Nat → Nat → Nat)
    (st : Logger) (ev : XEvent) (h : ev.isMouseRecord = true) :
    handleKeyBlock kmap st ev = (st, []) := by
  cases ev with
  | keyPress d => simp [XEvent.isMouseRecord] at h
  | keyRelease d => simp [XEvent.isMouseRecord] at h
  | buttonPress d => unfold handleKeyBlock; split <;> rfl
  | buttonRelease d => unfold handleKeyBlock; split <;> rfl
  | motionNotify x y => unfold handleKeyBlock; split <;> rfl
  | otherEvent c => unfold handleKeyBlock; split <;> rfl

theorem handleMouseBlock_of_key_record (st : Logger) (d : Nat)
    (ev : XEvent) (h : ev = .keyPress d ∨ ev = .keyRelease d) :
    handleMouseBlock st ev = (st, []) := by
  rcases h with rfl | rfl <;> · unfold handleMouseBlock; split <;> rfl

theorem processRecord_no_keycb (kmap : Nat → Nat → Nat) (st : Logger)
    (ev : XEvent) (h : st.keyCbSet = false) :
    (processRecord kmap st ev).1.shiftHeld = st.shiftHeld ∧
    (processRecord kmap st ev).1.capsHeld = st.capsHeld := by
  have hm := handleMouseBlock_fst_frame st ev
  unfold processRecord
  dsimp only
  rw [handleKeyBlock_of_no_keycb kmap st ev h]
  exact ⟨hm.1, hm.2.1⟩

theorem processRecord_no_mousecb (kmap : Nat → Nat → Nat) (st : Logger)
    (ev : XEvent) (h : st.mouseCbSet = false) :
    (processRecord kmap st ev).1.mousePos = st.mousePos := by
  have hk := handleKeyBlock_fst_frame kmap st ev
  unfold processRecord
  dsimp only
  rw [handleMouseBlock_of_no_mousecb (handleKeyBlock kmap st ev).1 ev
    (hk.2.2.1.trans h)]
  exact hk.1

theorem processRecord_kb_only_mouse_record (kmap : Nat → Nat → Nat)
    (st : Logger) (ev : XEvent) (hm : st.mouseCbSet = false)
    (hev : ev.isMouseRecord = true) :
    processRecord kmap st ev = (st, []) := by
  unfold processRecord
  dsimp only
  rw [handleKeyBlock_of_mouse_record kmap st ev hev]
  dsimp only
  rw [handleMouseBlock_of_no_mousecb st ev hm]
  rfl

theorem processRecord_mousePos_of_not_motion (kmap : Nat → Nat → Nat)
    (st : Logger) (ev : XEvent) (h : ev.isMotion = false) :
    (processRecord kmap st ev).1.mousePos = st.mousePos := by
  have hk := handleKeyBlock_fst_frame kmap st ev
  have hm := handleMouseBlock_mousePos_of_not_motion
    (handleKeyBlock kmap st ev).1 ev h
  unfold processRecord
  dsimp only
  exact hm.trans hk.1

/-! ## Whole-buffer traversal lemmas -/

theorem processData_no_keycb (kmap : Nat → Nat → Nat) (evs : List XEvent) :
    ∀ st : Logger, st.keyCbSet = false →
      (processData kmap st evs).1.shiftHeld = st.shiftHeld ∧
      (processData kmap st evs).1.capsHeld = st.capsHeld := by
  induction evs with
  | nil => exact fun st _ => ⟨rfl, rfl⟩
  | cons ev rest ih =>
    intro st h
    have h1 := processRecord_no_keycb kmap st ev h
    have hcb := (processRecord_cb_frame kmap st ev).1.trans h
    have h2 := ih (processRecord kmap st ev).1 hcb
    unfold processData
    dsimp only
    exact ⟨h2.1.trans h1.1, h2.2.trans h1.2⟩

theorem processData_no_mousecb (kmap : Nat → Nat → Nat) (evs : List XEvent) :
    ∀ st : Logger, st.mouseCbSet = false →
      (processData kmap st evs).1.mousePos = st.mousePos := by
  induction evs with
  | nil => exact fun st _ => rfl
  | cons ev rest ih =>
    intro st h
    have h1 := processRecord_no_mousecb kmap st ev h
    have hcb := (processRecord_cb_frame kmap st ev).2.trans h
    have h2 := ih (processRecord kmap st ev).1 hcb
    unfold processData
    dsimp only
    exact h2.trans h1

theorem processData_kb_only_mouse_records (kmap : Nat → Nat → Nat)
    (evs : List XEvent) :
    ∀ st : Logger, st.mouseCbSet = false →
      evs.all XEvent.isMouseRecord = true →
      processData kmap st evs = (st, []) := by
  induction evs with
  | nil => exact fun st _ _ => rfl
  | cons ev rest ih =>
    intro st hm hall
    rw [List.all_cons, Bool.and_eq_true] at hall
    have hrec := processRecord_kb_only_mouse_record kmap st ev hm hall.1
    unfold processData
    dsimp only
    rw [hrec]
    dsimp only
    rw [ih st hm hall.2]
    rfl

theorem processData_mousePos_of_motion_free (kmap : Nat → Nat → Nat)
    (evs : List XEvent) :
    ∀ st : Logger, evs.all (fun e => !e.isMotion) = true →
      (processData kmap st evs).1.mousePos = st.mousePos := by
  induction evs with
  | nil => exact fun st _ => rfl
  | cons ev rest ih =>
    intro st hall
    rw [List.all_cons, Bool.and_eq_true] at hall
    have h1 := processRecord_mousePos_of_not_motion kmap st ev
      (by rw [← Bool.not_not ev.isMotion, hall.1]; rfl)
    have h2 := ih (processRecord kmap st ev).1 hall.2
    unfold processData
    dsimp only
    exact h2.trans h1

/-- C1 counterexample: with only a keyboard callback registered, a valid
buffer holding one motion record at `(10, 20)` yields zero invocations,
but the pointer state stays at `(0, 0)` — it does NOT equal the motion
record's coordinates; and with no keyboard callback registered, a key
press of a Shift key leaves `shift_held` false — modifier state is not
updated. -/
theorem c1_counterexample :
    (processEvents kmap0 kbOnlyLogger motionOnlyReply).2 = [] ∧
    (processEvents kmap0 kbOnlyLogger motionOnlyReply).1.mousePos ≠ (10, 20) ∧
    (processEvents kmapShiftAt50 mouseOnlyLogger keyPressOnlyReply).2 = [] ∧
    (processEvents kmapShiftAt50 mouseOnlyLogger
      keyPressOnlyReply).1.shiftHeld = false := by
  decide

/-- C1 amended: decoding advances through the buffer regardless of which
observers are registered, but event construction — and the state updates
made inside it — is guarded by the callback checks: with no keyboard
callback, key records leave modifier state unchanged; with no mouse
callback, motion records leave pointer state unchanged; registering only
a keyboard callback and processing a buffer of only mouse records yields
zero callback invocations and leaves the pointer state unchanged (it does
not track the motion records' coordinates). -/
theorem c1_observer_gated_state (kmap : Nat → Nat → Nat) (st : Logger)
    (evs : List XEvent) :
    (st.keyCbSet = false →
      (processData kmap st evs).1.shiftHeld = st.shiftHeld ∧
      (processData kmap st evs).1.capsHeld = st.capsHeld) ∧
    (st.mouseCbSet = false →
      (processData kmap st evs).1.mousePos = st.mousePos) ∧
    (st.mouseCbSet = false → evs.all XEvent.isMouseRecord = true →
      processData kmap st evs = (st, [])) := by
  exact ⟨processData_no_keycb kmap evs st,
    processData_no_mousecb kmap evs st,
    processData_kb_only_mouse_records kmap evs st⟩

/-- Witness for C1: the gated updates evaluated on concrete loggers and
buffers. -/
theorem c1_observer_gated_state_witness :
    ((processData kmapShiftAt50 mouseOnlyLogger
        [XEvent.keyPress 50]).1.shiftHeld = mouseOnlyLogger.shiftHeld ∧
      (processData kmapShiftAt50 mouseOnlyLogger
        [XEvent.keyPress 50]).1.capsHeld = mouseOnlyLogger.capsHeld) ∧
    (processData kmap0 kbOnlyLogger
      [XEvent.motionNotify 10 20]).1.mousePos = kbOnlyLogger.mousePos ∧
    processData kmap0 kbOnlyLogger [XEvent.motionNotify 10 20] =
      (kbOnlyLogger, []) :=
  ⟨(c1_observer_gated_state kmapShiftAt50 mouseOnlyLogger _).1 rfl,
   (c1_observer_gated_state kmap0 kbOnlyLogger _).2.1 rfl,
   (c1_observer_gated_state kmap0 kbOnlyLogger _).2.2 rfl (by decide)⟩

/-- C10: starting from a state whose pointer position is the initial
`(0, 0)` (as set by `__init__`), after decoding any sequence of records
containing no motion record, a ButtonPress or ButtonRelease record
produces a `MouseEvent` whose position is `(0, 0)`. -/
theorem c10_button_pos_before_motion (kmap : Nat → Nat → Nat) (st : Logger)
    (evs : List XEvent) (b : Nat) (hpos : st.mousePos = (0, 0))
    (hfree : evs.all (fun e => !e.isMotion) = true) :
    (createButtonPressEvent (processData kmap st evs).1 b).2.pos = (0, 0) ∧
    (createButtonReleaseEvent (processData kmap st evs).1 b).2.pos = (0, 0) := by
  have h := (processData_mousePos_of_motion_free kmap evs st hfree).trans hpos
  constructor <;>
    simp [createButtonPressEvent, createButtonReleaseEvent, mkMouseEvent, h]

/-- Witness for C10: a fresh mouse-observing logger and a motion-free
prefix. -/
theorem c10_button_pos_before_motion_witness :
    mouseOnlyLogger.mousePos = (0, 0) ∧
    (createButtonPressEvent
      (processData kmap0 mouseOnlyLogger
        [XEvent.keyPress 38, XEvent.buttonPress 1]).1 1).2.pos = (0, 0) ∧
    (createButtonReleaseEvent
      (processData kmap0 mouseOnlyLogger
        [XEvent.keyPress 38, XEvent.buttonPress 1]).1 3).2.pos = (0, 0) :=
  ⟨rfl,
   (c10_button_pos_before_motion kmap0 mouseOnlyLogger _ 1 rfl (by decide)).1,
   (c10_button_pos_before_motion kmap0 mouseOnlyLogger _ 3 rfl (by decide)).2⟩

/-! ## Ordering of mouse deliveries within one buffer -/

theorem handleKeyBlock_filter_mouse (kmap : Nat → Nat → Nat) (st : Logger)
    (ev : XEvent) :
    (handleKeyBlock kmap st ev).2.filter Invocation.isMouse = [] := by
  unfold handleKeyBlock
  split
  · cases ev <;> simp [Invocation.isMouse]
  · rfl

theorem processRecord_keyPress_filter_mouse (kmap : Nat → Nat → Nat)
    (st : Logger) (d : Nat) :
    (processRecord kmap st (.keyPress d)).2.filter Invocation.isMouse = [] := by
  unfold processRecord
  dsimp only
  rw [List.filter_append, handleKeyBlock_filter_mouse,
    handleMouseBlock_of_key_record (handleKeyBlock kmap st (.keyPress d)).1 d
      (.keyPress d) (Or.inl rfl)]
  rfl

theorem handleMouseBlock_motion (st : Logger) (x y : Int)
    (h : st.mouseCbSet = true) :
    handleMouseBlock st (.motionNotify x y) =
      ({ st with mousePos := (x, y) },
       [.mouse (mkMouseEvent 0 none (x, y) true)]) := by
  unfold handleMouseBlock createMouseMoveEvent
  rw [h]
  rfl

theorem handleMouseBlock_buttonPress (st : Logger) (d : Nat)
    (h : st.mouseCbSet = true) :
    handleMouseBlock st (.buttonPress d) =
      (st, [.mouse (mkMouseEvent d (some true) st.mousePos false)]) := by
  unfold handleMouseBlock createButtonPressEvent
  rw [h]
  rfl

theorem processRecord_motion (kmap : Nat → Nat → Nat) (st : Logger)
    (x y : Int) (h : st.mouseCbSet = true) :
    processRecord kmap st (.motionNotify x y) =
      ({ st with mousePos := (x, y) },
       [.mouse (mkMouseEvent 0 none (x, y) true)]) := by
  unfold processRecord
  dsimp only
  rw [handleKeyBlock_of_mouse_record kmap st (.motionNotify x y) rfl]
  dsimp only
  rw [handleMouseBlock_motion st x y h]
  rfl

theorem processRecord_buttonPress (kmap : Nat → Nat → Nat) (st : Logger)
    (d : Nat) (h : st.mouseCbSet = true) :
    processRecord kmap st (.buttonPress d) =
      (st, [.mouse (mkMouseEvent d (some true) st.mousePos false)]) := by
  unfold processRecord
  dsimp only
  rw [handleKeyBlock_of_mouse_record kmap st (.buttonPress d) rfl]
  dsimp only
  rw [handleMouseBlock_buttonPress st d h]
  rfl

/-- C7: processing the valid buffer `[KeyPress(A), Motion(10, 20),
ButtonPress(1)]` with a mouse observer registered delivers to that
observer exactly the motion event followed by the button-press event —
the motion strictly first — and the button-press `MouseEvent` carries
position `(10, 20)`, the motion record's coordinates. -/
theorem c7_motion_before_button (kmap : Nat → Nat → Nat) (st : Logger)
    (h : st.mouseCbSet = true) :
    (processEvents kmap st orderingReply).2.filter Invocation.isMouse =
      [.mouse (mkMouseEvent 0 none (10, 20) true),
       .mouse (mkMouseEvent 1 (some true) (10, 20) false)] ∧
    (mkMouseEvent 1 (some true) (10, 20) false).pos = (10, 20) ∧
    (mkMouseEvent 0 none (10, 20) true).move = true := by
  refine ⟨?_, rfl, rfl⟩
  have hpe : processEvents kmap st orderingReply =
      processData kmap st
        [.keyPress 38, .motionNotify 10 20, .buttonPress 1] := by
    unfold processEvents
    rw [show replyValid orderingReply = true from by decide]
    rfl
  rw [hpe]
  simp only [processData]
  have h1 : (processRecord kmap st (.keyPress 38)).1.mouseCbSet = true :=
    (processRecord_cb_frame kmap st (.keyPress 38)).2.trans h
  rw [processRecord_motion kmap (processRecord kmap st (.keyPress 38)).1
    10 20 h1]
  dsimp only
  rw [processRecord_buttonPress kmap
    { (processRecord kmap st (.keyPress 38)).1 with mousePos := (10, 20) } 1
    h1]
  dsimp only
  rw [List.filter_append, processRecord_keyPress_filter_mouse]
  rfl

/-- Witness for C7: the fresh mouse-observing logger under the trivial
keymap. -/
theorem c7_motion_before_button_witness :
    (processEvents kmap0 mouseOnlyLogger orderingReply).2.filter
        Invocation.isMouse =
      [.mouse (mkMouseEvent 0 none (10, 20) true),
       .mouse (mkMouseEvent 1 (some true) (10, 20) false)] :=
  (c7_motion_before_button kmap0 mouseOnlyLogger rfl).1

end AutoitLogger
